import Mathlib

/-!
Shallow embedding of the Course-Creator web-search RAG pipeline and course
orchestrator (src/web_search_rag.py, src/build_course.py, src/get_modules.py).

Python strings are sequences of Unicode code points, so they are modelled as
`List Char` (this also gives Python's code-point slicing, `startswith`, and
negative-index semantics directly).  External effects — the DuckDuckGo search
provider, HTTP page fetches, BeautifulSoup extraction, the sentence-embedding
model, the recursive text splitter and the LLM completion endpoint — are
parameters of the corresponding functions; exceptions are `Except` values;
mutation of `self` is explicit state passing.  Machine floats of the embedding
vectors are modelled as exact integers: the claims under study concern the
ordering and bookkeeping of the search structure, not float rounding.
-/

/-- Python string: a sequence of Unicode code points. -/
abbrev Str := List Char

/-- Code points of a string literal. -/
def str (s : String) : Str := s.toList

/-- Python `str.startswith`. -/
def pyStartsWith (s p : Str) : Bool := p.isPrefixOf s

/-- Python `str.strip()`: drop leading and trailing whitespace. -/
def pyStrip (s : Str) : Str :=
  ((s.dropWhile Char.isWhitespace).reverse.dropWhile Char.isWhitespace).reverse

/-- One step of `re.sub(r"\s+", " ", text)`: each maximal whitespace run
becomes a single space. -/
def collapseRuns : Str → Str
  | [] => []
  | [c] => if c.isWhitespace then [' '] else [c]
  | c :: d :: cs =>
    if c.isWhitespace && d.isWhitespace then collapseRuns (d :: cs)
    else (if c.isWhitespace then ' ' else c) :: collapseRuns (d :: cs)

/-- The cleanup `re.sub(r"\s+", " ", text).strip()` of `extract_text`
(src/web_search_rag.py line 66). -/
def collapseWs (s : Str) : Str := pyStrip (collapseRuns s)

/-- The error marker `⚠️` that `extract_text` prepends to failure output and
`search` tests with `content.startswith("⚠️")`. -/
def warnMark : Str := str ("⚠️")

-- ============================================================
-- WebContentFetcher (src/web_search_rag.py lines 29-102)
-- ============================================================

/-- One raw hit as returned by the DuckDuckGo search provider (`ddgs.text`):
the dictionary keys read by `search`.  `href` is `h.get("href") or
h.get("url")` (absent URL modelled as `none`); `body`/`description` are the
snippet candidates, absent keys folded into `[]`. -/
structure RawHit where
  href : Option Str
  title : Str
  body : Str
  description : Str
deriving DecidableEq

/-- The record `search` appends per successful hit
(src/web_search_rag.py lines 91-97). -/
structure SearchHit where
  rank : Nat
  title : Str
  url : Str
  snippet : Str
  content : Str
deriving DecidableEq

/-- `WebContentFetcher.extract_text` (src/web_search_rag.py lines 33-70).
The HTTP GET (with browser User-Agent and timeout) and the BeautifulSoup
processing — decomposing script/style/nav/footer/header/aside/form, trying the
content-area selectors in order, falling back to paragraphs longer than 30
characters — are external effects, modelled by `fetchPage` (the response body,
or a transport/HTTP-status error) and `soupText` (the extracted readable text
of a fetched page).  On success the text is whitespace-collapsed and truncated
to 8000 code points; on any failure the returned string carries the `⚠️`
error marker, exactly as the `except` arm formats it. -/
def extract_text (fetchPage : Str → Except Str Str) (soupText : Str → Str)
    (url : Str) : Str :=
  match fetchPage url with
  | Except.error e => str ("⚠️ Error extracting ") ++ url ++ str (": ") ++ e
  | Except.ok page => (collapseWs (soupText page)).take 8000

/-- Python `h.get("body", "") or h.get("description", "")`: an empty `body`
is falsy, so `description` is used in its place. -/
def rawSnippet (h : RawHit) : Str := if h.body = [] then h.description else h.body

/-- The body of the per-hit loop of `WebContentFetcher.search`
(src/web_search_rag.py lines 81-99), for the hit at position `p.1` of the
provider's list: skip it when it has no URL, fetch and extract its content,
and keep it only when the content does not start with the error marker.
The snippet is truncated to 200 code points, the rank is the provider position
plus one.  (The politeness `time.sleep` between fetches has no data effect.) -/
def searchStep (fetchPage : Str → Except Str Str) (soupText : Str → Str)
    (p : Nat × RawHit) : Option SearchHit :=
  match p.2.href with
  | none => none
  | some url =>
    let content := extract_text fetchPage soupText url
    if pyStartsWith content warnMark then none
    else some { rank := p.1 + 1, title := p.2.title, url := url,
                snippet := (rawSnippet p.2).take 200, content := content }

/-- `WebContentFetcher.search` (src/web_search_rag.py lines 72-102): run the
per-hit loop over the provider's hit list (the `ddgs.text` call is external;
`rawHits` is the list it returned, which the provider caps at
`config.max_results`), collecting the hits that survive. -/
def search (fetchPage : Str → Except Str Str) (soupText : Str → Str)
    (rawHits : List RawHit) : List SearchHit :=
  rawHits.enum.filterMap (searchStep fetchPage soupText)

-- ============================================================
-- VectorBuilder (src/web_search_rag.py lines 107-132)
-- ============================================================

/-- The mutable state of a `VectorBuilder`: the faiss `IndexFlatL2` is the
list of stored embedding vectors in insertion order (`ntotal` is its length),
`docs_store` is the parallel chunk-text store. -/
structure VectorBuilder where
  index : List (List Int)
  docs_store : List Str
deriving DecidableEq

/-- A fresh `VectorBuilder.__init__` state: empty index, empty store. -/
def freshVB : VectorBuilder := ⟨[], []⟩

/-- `VectorBuilder.chunk_text` (src/web_search_rag.py lines 115-117): run the
external `RecursiveCharacterTextSplitter` (`split`), keep the stripped chunk
texts that are non-empty after stripping. -/
def chunk_text (split : Str → List Str) (text : Str) : List Str :=
  ((split text).map pyStrip).filter (fun c => c ≠ [])

/-- `VectorBuilder.add_text` (src/web_search_rag.py lines 119-125): chunk the
text and, per chunk, append its embedding (`embed` is the external sentence
transformer) to the index and the chunk text to the parallel store; return
the number of chunks. -/
def add_text (embed : Str → List Int) (split : Str → List Str)
    (vb : VectorBuilder) (text : Str) : VectorBuilder × Nat :=
  let chunks := chunk_text split text
  (chunks.foldl
    (fun s c => ⟨s.index ++ [embed c], s.docs_store ++ [c]⟩) vb,
   chunks.length)

/-- Squared L2 distance, the `IndexFlatL2` metric, in exact arithmetic. -/
def sqDist (u v : List Int) : Int :=
  (List.zipWith (fun a b => (a - b) * (a - b)) u v).sum

/-- The ranking an exact faiss L2 search induces on the labels of the stored
vectors: by increasing distance to the query, ties broken by insertion
position (the tie order does not affect any property proved below). -/
def FaissLe (vecs : List (List Int)) (q : List Int) (i j : Nat) : Prop :=
  sqDist (vecs.getD i []) q < sqDist (vecs.getD j []) q ∨
    (sqDist (vecs.getD i []) q = sqDist (vecs.getD j []) q ∧ i ≤ j)

instance (vecs : List (List Int)) (q : List Int) :
    DecidableRel (FaissLe vecs q) := fun i j => by
  unfold FaissLe; exact inferInstance

instance (vecs : List (List Int)) (q : List Int) :
    IsTotal Nat (FaissLe vecs q) := by
  constructor
  intro a b
  rcases lt_trichotomy (sqDist (vecs.getD a []) q) (sqDist (vecs.getD b []) q)
    with h | h | h
  · exact Or.inl (Or.inl h)
  · rcases Nat.le_total a b with hab | hba
    · exact Or.inl (Or.inr ⟨h, hab⟩)
    · exact Or.inr (Or.inr ⟨h.symm, hba⟩)
  · exact Or.inr (Or.inl h)

instance (vecs : List (List Int)) (q : List Int) :
    IsTrans Nat (FaissLe vecs q) := by
  constructor
  intro a b c hab hbc
  rcases hab with hab | ⟨hab, hab'⟩ <;> rcases hbc with hbc | ⟨hbc, hbc'⟩
  · exact Or.inl (lt_trans hab hbc)
  · exact Or.inl (hbc ▸ hab)
  · exact Or.inl (hab ▸ hbc)
  · exact Or.inr ⟨hab.trans hbc, le_trans hab' hbc'⟩

/-- All labels `0, …, ntotal-1` of the stored vectors, ranked by increasing
L2 distance to the query vector. -/
def rankedIdx (vecs : List (List Int)) (q : List Int) : List Nat :=
  (List.range vecs.length).insertionSort (FaissLe vecs q)

/-- The label row `I[0]` of `faiss.IndexFlatL2.search(q, k)`: the `k` exact
nearest-neighbor labels by increasing distance; when `k` exceeds the stored
count the row is padded with `-1`, as faiss does for queries with too few
results. -/
def faissSearchLabels (vecs : List (List Int)) (q : List Int) (k : Nat) :
    List Int :=
  ((rankedIdx vecs q).take k).map Int.ofNat ++
    List.replicate (k - vecs.length) (-1)

/-- Python list indexing `l[i]`: a negative index counts from the end of the
list.  (An out-of-range access raises in Python; no out-of-range access occurs
where this is used, so a default value stands in.) -/
def pyGet (l : List Str) (i : Int) : Str :=
  if i < 0 then l.getD (l.length - (-i).toNat) [] else l.getD i.toNat []

/-- `VectorBuilder.query` (src/web_search_rag.py lines 127-132): raise when
the index is empty; otherwise embed the question, run the faiss search and map
the returned label row through `docs_store`, keeping each label `i` with
`i < len(self.docs_store)` — note that a `-1` padding label passes this check,
and Python's negative indexing then resolves it to the last stored chunk. -/
def VectorBuilder.query (embed : Str → List Int) (vb : VectorBuilder)
    (question : Str) (top_k : Nat) : Except Str (List Str) :=
  if vb.index.length = 0 then
    Except.error (str ("Index is empty. Add text before querying."))
  else
    let qvec := embed question
    let labels := faissSearchLabels vb.index qvec top_k
    Except.ok (labels.filterMap (fun i =>
      if i < (vb.docs_store.length : Int) then some (pyGet vb.docs_store i)
      else none))

-- ============================================================
-- WebSearchRAG (src/web_search_rag.py lines 137-174)
-- ============================================================

/-- The `{title, url}` attribution record captured per answer. -/
structure SourceRef where
  title : Str
  url : Str
deriving DecidableEq

/-- The mutable state of a `WebSearchRAG` instance: its `VectorBuilder`, the
captured source list, and the `top_chunks` setting (default 5). -/
structure WebSearchRAG where
  vb : VectorBuilder
  sources : List SourceRef
  top_chunks : Nat
deriving DecidableEq

/-- `WebSearchRAG.build_index` (src/web_search_rag.py lines 145-155): run the
fetcher's `search` on the query (its provider hit list is the external
`rawHits`), capture the first 5 results' `{title, url}` as `self.sources`, and
feed each result's content into `VectorBuilder.add_text`, skipping falsy
(empty) contents; return the new state and the total chunk count. -/
def build_index (embed : Str → List Int) (split : Str → List Str)
    (fetchPage : Str → Except Str Str) (soupText : Str → Str)
    (rag : WebSearchRAG) (rawHits : List RawHit) : WebSearchRAG × Nat :=
  let results := search fetchPage soupText rawHits
  let sources := (results.take 5).map (fun r => SourceRef.mk r.title r.url)
  let built := results.foldl
    (fun (acc : VectorBuilder × Nat) r =>
      if r.content = [] then acc
      else
        let out := add_text embed split acc.1 r.content
        (out.1, acc.2 + out.2))
    (rag.vb, 0)
  (⟨built.1, sources, rag.top_chunks⟩, built.2)

/-- The fixed system message of `answer_with_web`. -/
def ragSystemMsg : Str :=
  str ("You are an expert assistant that summarizes and explains using verified, web-fetched content.")

/-- The user message of `answer_with_web`: context plus question. -/
def ragUserMsg (context q : Str) : Str :=
  str ("Context from web:\n") ++ context ++ str ("\n\nQuestion: ") ++ q ++
    str ("\n\nProvide a clear, visual, and up-to-date answer with examples.")

/-- The two-message prompt of `answer_with_web`
(src/web_search_rag.py lines 166-169), as (role, content) pairs. -/
def ragMessages (context q : Str) : List (Str × Str) :=
  [(str ("system"), ragSystemMsg), (str ("user"), ragUserMsg context q)]

/-- `WebSearchRAG.answer_with_web` (src/web_search_rag.py lines 157-174):
when the index is empty, first call `build_index` on the query; then run
`VectorBuilder.query` for the top chunks (an empty-index error propagates — it
is not caught here), join them with blank lines as the grounding context, and
return the completion content (`complete` is the external LLM call at
temperature 0.7, max 900 tokens; its first choice's message content is the
answer).

The embedding makes the implicit effects explicit: the first component counts
the `build_index` calls performed (0 or 1), and a successful result carries
the final instance state next to the answer.  The Python function's own return
value is only the answer string (`-> str`). -/
def answer_with_web (embed : Str → List Int) (split : Str → List Str)
    (fetchPage : Str → Except Str Str) (soupText : Str → Str)
    (complete : List (Str × Str) → Str) (rag : WebSearchRAG)
    (rawHits : List RawHit) (q : Str) :
    Nat × Except Str (WebSearchRAG × Str) :=
  let b :=
    if rag.vb.index.length = 0 then
      ((build_index embed split fetchPage soupText rag rawHits).1, 1)
    else (rag, 0)
  (b.2,
    match VectorBuilder.query embed b.1.vb q b.1.top_chunks with
    | Except.error e => Except.error e
    | Except.ok top_contexts =>
      let context := List.intercalate (str ("\n\n")) top_contexts
      Except.ok (b.1, complete (ragMessages context q)))

-- ============================================================
-- CourseBuilder and ModuleGenerator
-- (src/build_course.py, src/get_modules.py)
-- ============================================================

/-- The web-context record `{"context": ..., "sources": ...}` built by
`CourseBuilder.get_web_context`. -/
structure WebCtx where
  context : Str
  sources : List SourceRef
deriving DecidableEq

/-- The two shapes `CourseBuilder.get_web_context` can return: the bare string
`""` of its `if not self.web_rag` guard, or the context/sources record. -/
inductive WebCtxReturn where
  | bare (s : Str)
  | record (w : WebCtx)
deriving DecidableEq

/-- `CourseBuilder.get_web_context` (src/build_course.py lines 63-76).
`useWeb` is whether `self.web_rag` was constructed (web grounding enabled).
The body of the `try` block is `attempt`: in the source it evaluates
`self.web_rag_answer_with_web(topic)` — an attribute that does not exist on
`CourseBuilder` (the RAG method is `self.web_rag.answer_with_web`), so as
written the attempt always raises `AttributeError`; more generally any
search / embedding / completion failure inside the pipeline surfaces here as
an `Except.error`.  The `except` arm logs and returns the empty web context
record. -/
def get_web_context (useWeb : Bool) (attempt : Str → Except Str WebCtx)
    (topic : Str) : WebCtxReturn :=
  if !useWeb then WebCtxReturn.bare []
  else
    match attempt topic with
    | Except.ok w => WebCtxReturn.record w
    | Except.error _ => WebCtxReturn.record ⟨[], []⟩

/-- `CourseBuilder.generate_lesson_content` (src/build_course.py lines
78-132), seen through its failure boundary: the lesson prompt (built from the
topic, module and lesson names plus the fetched web context) is sent to the
LLM and the completion content is passed to `json.loads`.  `complete` bundles
the prompt construction and LLM call (external text formatting and I/O);
`parse` is `json.loads` into the lesson structure `α`, failing on malformed
JSON; any error of either — parse error, upstream call error — propagates to
the caller `build_topic`. -/
def generate_lesson_content {α : Type} (complete : Str → Str → Str → Str)
    (parse : Str → Except Str α) (topic module_name lesson_title : Str) :
    Except Str α :=
  parse (complete topic module_name lesson_title)

/-- `ModuleGenerator.generate_lessons` (src/get_modules.py lines 59-109): ask
the LLM for lesson titles for the module and parse the reply's `"lessons"`
JSON field; on malformed JSON it prints a warning and returns `[]`. -/
def generate_lessons (complete : Str → Str → Str)
    (parseLessons : Str → Except Str (List Str)) (topic module_title : Str) :
    List Str :=
  match parseLessons (complete topic module_title) with
  | Except.ok ls => ls
  | Except.error _ => []

/-- The three fallback lesson titles `build_topic` substitutes when a module's
lesson generation yields nothing (src/build_course.py lines 154-159). -/
def fallbackLessons (module_title : Str) : List Str :=
  [str ("Introduction to ") ++ module_title,
   str ("Advanced ") ++ module_title ++ str (" Concepts"),
   module_title ++ str (" Best Practices")]

/-- The lesson-title list `build_topic` iterates for a module: the generated
titles, or the three fallbacks when that list is empty. -/
def effectiveLessons (gen_lessons : Str → Str → List Str)
    (topic module_title : Str) : List Str :=
  let lessons := gen_lessons topic module_title
  if lessons = [] then fallbackLessons module_title else lessons

/-- The per-module dictionary `build_topic` appends to the menu; `section` is
a Lean keyword, so that key is the field `sectionName` (the source sets both
`"module"` and `"section"` to the module title). -/
structure ModuleDict (α : Type) where
  module : Str
  sectionName : Str
  items : List α
deriving DecidableEq

/-- The per-module loop body of `CourseBuilder.build_topic`
(src/build_course.py lines 148-171): take the module's lessons (with the
fallback), and for each lesson title try `generate_lesson_content`
(`gen_lesson`), appending the content on success and logging-and-skipping on
any exception — the `try/except` inside the lesson loop. -/
def build_module {α : Type} (gen_lessons : Str → Str → List Str)
    (gen_lesson : Str → Str → Str → Except Str α) (topic module_title : Str) :
    ModuleDict α :=
  { module := module_title, sectionName := module_title,
    items := (effectiveLessons gen_lessons topic module_title).filterMap
      (fun l => (gen_lesson topic module_title l).toOption) }

/-- `CourseBuilder.build_topic` (src/build_course.py lines 134-174): generate
the modules (the `ModuleGenerator.generate_modules` output, parsed; `modules`
is the list of module `"section"` titles, `[]` when module generation
failed) — an empty module list is a hard failure returning `{}` (`none`);
otherwise build every module's dictionary and return
`{topic: {"menu": [...]}}`. -/
def build_topic {α : Type} (modules : List Str)
    (gen_lessons : Str → Str → List Str)
    (gen_lesson : Str → Str → Str → Except Str α) (topic : Str) :
    Option (Str × List (ModuleDict α)) :=
  if modules = [] then none
  else some (topic, modules.map (build_module gen_lessons gen_lesson topic))

-- ============================================================
-- Helper lemmas
-- ============================================================

/-- Sequences of `add_text` calls starting from a fresh `VectorBuilder`
(as in `VectorBuilder.__init__`), returning the final state. -/
def addTexts (embed : Str → List Int) (split : Str → List Str)
    (texts : List Str) : VectorBuilder :=
  texts.foldl (fun vb t => (add_text embed split vb t).1) freshVB

/-- The chunk loop of `add_text` appends the embeddings to the index and the
chunk texts to the store, in order. -/
theorem addChunks_foldl (embed : Str → List Int) :
    ∀ (l : List Str) (vb : VectorBuilder),
      l.foldl (fun s c => ⟨s.index ++ [embed c], s.docs_store ++ [c]⟩) vb =
        ⟨vb.index ++ l.map embed, vb.docs_store ++ l⟩ := by
  intro l
  induction l with
  | nil => intro vb; simp
  | cons a as ih =>
    intro vb
    rw [List.foldl_cons, ih ⟨vb.index ++ [embed a], vb.docs_store ++ [a]⟩]
    simp

/-- What one `add_text` call does to the state and what it returns. -/
theorem add_text_spec (embed : Str → List Int) (split : Str → List Str)
    (vb : VectorBuilder) (t : Str) :
    (add_text embed split vb t).1.index =
        vb.index ++ (chunk_text split t).map embed ∧
      (add_text embed split vb t).1.docs_store =
        vb.docs_store ++ chunk_text split t ∧
      (add_text embed split vb t).2 = (chunk_text split t).length := by
  have h : add_text embed split vb t =
      ((chunk_text split t).foldl
        (fun s c => ⟨s.index ++ [embed c], s.docs_store ++ [c]⟩) vb,
       (chunk_text split t).length) := rfl
  rw [h, addChunks_foldl]
  exact ⟨rfl, rfl, rfl⟩

/-- The index/store length balance is preserved by any `add_text` fold. -/
theorem foldl_add_text_balanced (embed : Str → List Int)
    (split : Str → List Str) :
    ∀ (texts : List Str) (vb : VectorBuilder),
      vb.index.length = vb.docs_store.length →
      (texts.foldl (fun vb t => (add_text embed split vb t).1) vb).index.length =
        (texts.foldl (fun vb t => (add_text embed split vb t).1) vb).docs_store.length := by
  intro texts
  induction texts with
  | nil => intro vb h; simpa using h
  | cons a as ih =>
    intro vb h
    rw [List.foldl_cons]
    refine ih _ ?_
    obtain ⟨hi, hd, -⟩ := add_text_spec embed split vb a
    rw [hi, hd]
    simp [h]

-- ============================================================
-- C2, C3, C4, C6
-- ============================================================

/-- C2: for every query string and every k, `VectorBuilder.query` on an index
with zero stored vectors fails with the empty-index error (`ValueError("Index
is empty. Add text before querying.")`) and never returns a result list. -/
theorem C2_empty_index_raises (embed : Str → List Int) (docs : List Str)
    (q : Str) (k : Nat) :
    VectorBuilder.query embed ⟨[], docs⟩ q k =
      Except.error (str ("Index is empty. Add text before querying.")) ∧
    ∀ res : List Str, VectorBuilder.query embed ⟨[], docs⟩ q k ≠ Except.ok res := by
  refine ⟨rfl, ?_⟩
  intro res h
  rw [show VectorBuilder.query embed ⟨[], docs⟩ q k =
    Except.error (str ("Index is empty. Add text before querying.")) from rfl] at h
  exact Except.noConfusion h

/-- C3: the value `answer_with_web` returns is the bare answer string.  At a
concrete ready (non-empty) index the call returns exactly the completion text
— the captured sources live only on the instance state and are absent from
the return value — while the claim (and the caller `get_web_context`, which
does `result.get('answer')` / `result.get('sources')`) requires an
`{answer, sources}` record. -/
theorem C3_answer_is_bare_string :
    answer_with_web (fun _ => [0]) (fun t => [t]) (fun _ => Except.error [])
      (fun _ => []) (fun _ => str ("ANSWER"))
      ⟨⟨[[0]], [str ("a")]⟩, [⟨str ("t"), str ("u")⟩], 5⟩ [] (str ("q")) =
      (0, Except.ok (⟨⟨[[0]], [str ("a")]⟩, [⟨str ("t"), str ("u")⟩], 5⟩,
        str ("ANSWER"))) := by
  rfl

/-- C4: with web grounding enabled, any failure of the web-context attempt
(search, embedding or completion — in the repository as written the attempt
always fails, since it calls the non-existent `self.web_rag_answer_with_web`)
is caught inside `get_web_context`, which returns the empty web context
record (empty context string, empty sources list) instead of propagating. -/
theorem C4_web_context_degrades (attempt : Str → Except Str WebCtx)
    (topic e : Str) (h : attempt topic = Except.error e) :
    get_web_context true attempt topic = WebCtxReturn.record ⟨[], []⟩ := by
  simp [get_web_context, h]

/-- Witness for C4 at a concrete failing attempt. -/
theorem C4_witness :
    (fun _ : Str => (Except.error (str ("search failed")) : Except Str WebCtx))
        (str ("t")) = Except.error (str ("search failed")) ∧
    get_web_context true (fun _ => Except.error (str ("search failed")))
        (str ("t")) = WebCtxReturn.record ⟨[], []⟩ :=
  ⟨rfl, C4_web_context_degrades (fun _ => Except.error (str ("search failed")))
    (str ("t")) (str ("search failed")) rfl⟩

/-- C6: along any sequence of `add_text` calls from a fresh `VectorBuilder`,
after each call the vector count of the index equals the chunk-text count of
the parallel store; and each `add_text` call returns exactly the number of
chunks it appended to both. -/
theorem C6_index_store_invariant (embed : Str → List Int)
    (split : Str → List Str) (texts : List Str) (n : Nat)
    (vb : VectorBuilder) (t : Str) :
    (addTexts embed split (texts.take n)).index.length =
      (addTexts embed split (texts.take n)).docs_store.length ∧
    (add_text embed split vb t).1.index.length =
      vb.index.length + (add_text embed split vb t).2 ∧
    (add_text embed split vb t).1.docs_store.length =
      vb.docs_store.length + (add_text embed split vb t).2 := by
  obtain ⟨hi, hd, hc⟩ := add_text_spec embed split vb t
  refine ⟨foldl_add_text_balanced embed split (texts.take n) freshVB rfl, ?_, ?_⟩
  · rw [hi, hc, List.length_append, List.length_map]
  · rw [hd, hc, List.length_append]

-- ============================================================
-- C5
-- ============================================================

/-- A prefix of `s` is a prefix of `s ++ t`. -/
theorem isPrefixOf_of_append (p s t : Str) (h : p.isPrefixOf s = true) :
    p.isPrefixOf (s ++ t) = true := by
  induction p generalizing s with
  | nil => simp [List.isPrefixOf]
  | cons a as ih =>
    cases s with
    | nil => simp [List.isPrefixOf] at h
    | cons b bs =>
      rw [List.cons_append]
      simp only [List.isPrefixOf, Bool.and_eq_true] at h ⊢
      exact ⟨h.1, ih bs h.2⟩

/-- The failure output of `extract_text` always carries the error marker. -/
theorem warn_marks_errors (u e : Str) :
    pyStartsWith (str ("⚠️ Error extracting ") ++ u ++ str (": ") ++ e)
      warnMark = true := by
  unfold pyStartsWith warnMark
  rw [List.append_assoc, List.append_assoc]
  exact isPrefixOf_of_append _ _ _ (by decide)

/-- C5: `search` keeps at most as many hits as the provider returned (which
the provider caps at `max_results`); every returned hit's content is the
extraction result for its URL and carries no error marker; a hit whose fetch
failed contributes nothing to the output; and every hit with a URL and a
marker-free extraction is kept — one hit's failure never discards the rest. -/
theorem C5_search_drops_failures (fetchPage : Str → Except Str Str)
    (soupText : Str → Str) (rawHits : List RawHit) (max_results : Nat)
    (hlen : rawHits.length ≤ max_results) :
    (search fetchPage soupText rawHits).length ≤ max_results ∧
    (∀ hit ∈ search fetchPage soupText rawHits,
        pyStartsWith hit.content warnMark = false ∧
        hit.content = extract_text fetchPage soupText hit.url) ∧
    (∀ (i : Nat) (h : RawHit) (url e : Str), h.href = some url →
        fetchPage url = Except.error e →
        searchStep fetchPage soupText (i, h) = none) ∧
    (∀ (i : Nat) (h : RawHit) (url : Str), (i, h) ∈ rawHits.enum →
        h.href = some url →
        pyStartsWith (extract_text fetchPage soupText url) warnMark = false →
        ({ rank := i + 1, title := h.title, url := url,
           snippet := (rawSnippet h).take 200,
           content := extract_text fetchPage soupText url } : SearchHit) ∈
          search fetchPage soupText rawHits) := by
  refine ⟨?_, ?_, ?_, ?_⟩
  · calc (search fetchPage soupText rawHits).length
        ≤ rawHits.enum.length := List.length_filterMap_le _ _
      _ = rawHits.length := List.enum_length
      _ ≤ max_results := hlen
  · intro hit hmem
    obtain ⟨⟨i, h⟩, -, hstep⟩ := List.mem_filterMap.mp hmem
    unfold searchStep at hstep
    cases hhref : h.href with
    | none => rw [hhref] at hstep; exact Option.noConfusion hstep
    | some url =>
      rw [hhref] at hstep
      simp only [] at hstep
      by_cases hmark :
          pyStartsWith (extract_text fetchPage soupText url) warnMark = true
      · rw [if_pos hmark] at hstep; exact Option.noConfusion hstep
      · rw [if_neg hmark] at hstep
        obtain rfl := Option.some.inj hstep
        exact ⟨Bool.eq_false_iff.mpr hmark, rfl⟩
  · intro i h url e hhref hfail
    unfold searchStep
    rw [hhref]
    simp only [extract_text, hfail]
    rw [if_pos (warn_marks_errors url e)]
  · intro i h url hmem hhref hmark
    refine List.mem_filterMap.mpr ⟨(i, h), hmem, ?_⟩
    unfold searchStep
    rw [hhref]
    simp only []
    rw [if_neg (by rw [hmark]; exact Bool.false_ne_true)]

/-- Witness for C5: three provider hits — one fetchable, one without a URL,
one whose fetch fails — under the default cap of 8. -/
theorem C5_witness :
    ([(⟨some (str ("good")), str ("t1"), [], []⟩ : RawHit),
      ⟨none, str ("t2"), [], []⟩,
      ⟨some (str ("bad")), str ("t3"), [], []⟩] : List RawHit).length ≤ 8 ∧
    (search
        (fun u => if u = str ("bad") then Except.error (str ("404"))
          else Except.ok (str ("page text")))
        (fun _ => str ("hello"))
        [⟨some (str ("good")), str ("t1"), [], []⟩,
         ⟨none, str ("t2"), [], []⟩,
         ⟨some (str ("bad")), str ("t3"), [], []⟩]).length ≤ 8 :=
  ⟨by decide,
    (C5_search_drops_failures
      (fun u => if u = str ("bad") then Except.error (str ("404"))
        else Except.ok (str ("page text")))
      (fun _ => str ("hello"))
      [⟨some (str ("good")), str ("t1"), [], []⟩,
       ⟨none, str ("t2"), [], []⟩,
       ⟨some (str ("bad")), str ("t3"), [], []⟩] 8 (by decide)).1⟩

-- ============================================================
-- C7, C9
-- ============================================================

/-- The indexing fold of `build_index` — which skips hits whose content is
empty — produces the same `VectorBuilder` state as feeding every hit's
content through `add_text`, provided the external splitter produces nothing
from an empty text (so that `add_text` on an empty content is a no-op). -/
theorem build_fold_feeds_all (embed : Str → List Int) (split : Str → List Str)
    (hempty : chunk_text split [] = []) :
    ∀ (results : List SearchHit) (vb : VectorBuilder) (t : Nat),
      (results.foldl
        (fun (acc : VectorBuilder × Nat) r =>
          if r.content = [] then acc
          else
            let out := add_text embed split acc.1 r.content
            (out.1, acc.2 + out.2)) (vb, t)).1 =
      (results.map SearchHit.content).foldl
        (fun vb c => (add_text embed split vb c).1) vb := by
  intro results
  induction results with
  | nil => intro vb t; rfl
  | cons r rs ih =>
    intro vb t
    rw [List.map_cons, List.foldl_cons, List.foldl_cons]
    by_cases hc : r.content = []
    · rw [if_pos hc, hc]
      have hnoop : (add_text embed split vb []).1 = vb := by
        have h : add_text embed split vb [] =
            ((chunk_text split []).foldl
              (fun s c => ⟨s.index ++ [embed c], s.docs_store ++ [c]⟩) vb,
             (chunk_text split []).length) := rfl
        rw [h, hempty]
        rfl
      rw [hnoop]
      exact ih vb t
    · rw [if_neg hc]
      exact ih _ _

/-- C7: on an instance whose index is empty, `answer_with_web` performs
exactly one `build_index` call before retrieving and answering, and on a
non-empty index it performs none (the state a successful answer carries is
the untouched instance).  The build captures the first 5 fetched hits'
`{title, url}` as the sources list, and — given that the splitter produces
nothing from empty text — its index state is exactly that of feeding every
fetched hit's content into the chunk indexer. -/
theorem C7_autobuild_once (embed : Str → List Int) (split : Str → List Str)
    (fetchPage : Str → Except Str Str) (soupText : Str → Str)
    (complete : List (Str × Str) → Str) (rag : WebSearchRAG)
    (rawHits : List RawHit) (q : Str)
    (hempty : chunk_text split [] = []) :
    (rag.vb.index.length = 0 →
      (answer_with_web embed split fetchPage soupText complete rag rawHits q).1 = 1) ∧
    (rag.vb.index.length ≠ 0 →
      (answer_with_web embed split fetchPage soupText complete rag rawHits q).1 = 0 ∧
      ∀ out, (answer_with_web embed split fetchPage soupText complete rag rawHits q).2 =
        Except.ok out → out.1 = rag) ∧
    (build_index embed split fetchPage soupText rag rawHits).1.sources =
      ((search fetchPage soupText rawHits).take 5).map
        (fun r => SourceRef.mk r.title r.url) ∧
    (build_index embed split fetchPage soupText rag rawHits).1.vb =
      ((search fetchPage soupText rawHits).map SearchHit.content).foldl
        (fun vb c => (add_text embed split vb c).1) rag.vb := by
  refine ⟨?_, ?_, rfl, ?_⟩
  · intro h0
    unfold answer_with_web
    rw [if_pos h0]
  · intro h0
    unfold answer_with_web
    rw [if_neg h0]
    refine ⟨rfl, ?_⟩
    intro out hout
    simp only [] at hout
    cases hq : VectorBuilder.query embed rag.vb q rag.top_chunks with
    | error e => rw [hq] at hout; exact Except.noConfusion hout
    | ok tc =>
      rw [hq] at hout
      obtain rfl := Except.ok.inj hout
      rfl
  · exact build_fold_feeds_all embed split hempty
      (search fetchPage soupText rawHits) rag.vb 0

/-- Witness for C7: a fresh empty-index instance triggers exactly one build. -/
theorem C7_witness :
    chunk_text (fun s => [s]) [] = [] ∧
    (answer_with_web (fun _ => [0]) (fun s => [s]) (fun _ => Except.error [])
      (fun _ => []) (fun _ => []) ⟨freshVB, [], 5⟩ [] (str ("X"))).1 = 1 :=
  ⟨rfl,
    (C7_autobuild_once (fun _ => [0]) (fun s => [s]) (fun _ => Except.error [])
      (fun _ => []) (fun _ => []) ⟨freshVB, [], 5⟩ [] (str ("X")) rfl).1 rfl⟩

/-- C9: when `answer_with_web` starts from an empty index and the triggered
build indexes nothing (for example every fetch failed, so no chunk was
stored), the subsequent `VectorBuilder.query` raises the empty-index error
and that error propagates out of `answer_with_web` itself — the auto-build
does not guarantee the query's precondition. -/
theorem C9_autobuild_can_fail (embed : Str → List Int) (split : Str → List Str)
    (fetchPage : Str → Except Str Str) (soupText : Str → Str)
    (complete : List (Str × Str) → Str) (rag : WebSearchRAG)
    (rawHits : List RawHit) (q : Str)
    (h0 : rag.vb.index.length = 0)
    (hbuilt : (build_index embed split fetchPage soupText rag rawHits).1.vb.index.length = 0) :
    answer_with_web embed split fetchPage soupText complete rag rawHits q =
      (1, Except.error (str ("Index is empty. Add text before querying."))) := by
  unfold answer_with_web
  rw [if_pos h0]
  have hq : VectorBuilder.query embed
      (build_index embed split fetchPage soupText rag rawHits).1.vb q
      (build_index embed split fetchPage soupText rag rawHits).1.top_chunks =
      Except.error (str ("Index is empty. Add text before querying.")) := by
    unfold VectorBuilder.query
    rw [if_pos hbuilt]
  simp only [hq]

/-- Witness for C9: fresh instance, provider returns no hits, so the build
indexes nothing and the call errors. -/
theorem C9_witness :
    ((⟨freshVB, [], 5⟩ : WebSearchRAG)).vb.index.length = 0 ∧
    (build_index (fun _ => [0]) (fun s => [s]) (fun _ => Except.error [])
      (fun _ => []) ⟨freshVB, [], 5⟩ []).1.vb.index.length = 0 ∧
    answer_with_web (fun _ => [0]) (fun s => [s]) (fun _ => Except.error [])
      (fun _ => []) (fun _ => []) ⟨freshVB, [], 5⟩ [] (str ("X")) =
      (1, Except.error (str ("Index is empty. Add text before querying."))) :=
  ⟨rfl, rfl,
    C9_autobuild_can_fail (fun _ => [0]) (fun s => [s]) (fun _ => Except.error [])
      (fun _ => []) (fun _ => []) ⟨freshVB, [], 5⟩ [] (str ("X")) rfl rfl⟩

-- ============================================================
-- C8, C10
-- ============================================================

/-- C8: when `generate_lesson_content` (the LLM call followed by `json.loads`)
fails for one lesson of a module — malformed JSON or any other exception —
that lesson is skipped and contributes nothing, while every other lesson of
the module that generates successfully is still appended, before and after
the failing one and in order; and the topic build still returns a course with
every module present, so later modules are unaffected. -/
theorem C8_lesson_failure_skipped {α : Type} (modules : List Str)
    (gen_lessons : Str → Str → List Str) (complete : Str → Str → Str → Str)
    (parse : Str → Except Str α) (topic m : Str) (pre post : List Str)
    (bad e : Str) (hm : m ∈ modules)
    (hlessons : effectiveLessons gen_lessons topic m = pre ++ bad :: post)
    (hbad : generate_lesson_content complete parse topic m bad =
      Except.error e) :
    build_topic modules gen_lessons (generate_lesson_content complete parse)
        topic =
      some (topic, modules.map
        (build_module gen_lessons (generate_lesson_content complete parse)
          topic)) ∧
    (build_module gen_lessons (generate_lesson_content complete parse) topic
        m).items =
      pre.filterMap
          (fun l => (generate_lesson_content complete parse topic m l).toOption) ++
        post.filterMap
          (fun l => (generate_lesson_content complete parse topic m l).toOption) ∧
    ∀ l ∈ post, ∀ c,
      generate_lesson_content complete parse topic m l = Except.ok c →
      c ∈ (build_module gen_lessons (generate_lesson_content complete parse)
        topic m).items := by
  have hitems : (build_module gen_lessons
      (generate_lesson_content complete parse) topic m).items =
      pre.filterMap
          (fun l => (generate_lesson_content complete parse topic m l).toOption) ++
        post.filterMap
          (fun l => (generate_lesson_content complete parse topic m l).toOption) := by
    unfold build_module
    simp only [hlessons, List.filterMap_append, List.filterMap_cons, hbad]
    rfl
  refine ⟨?_, hitems, ?_⟩
  · unfold build_topic
    rw [if_neg (List.ne_nil_of_mem hm)]
  · intro l hl c hc
    rw [hitems]
    refine List.mem_append_right _ (List.mem_filterMap.mpr ⟨l, hl, ?_⟩)
    rw [hc]
    rfl

/-- Witness for C8: one module with three lessons, the middle one failing to
parse; the other two are still appended. -/
theorem C8_witness :
    (str ("M")) ∈ [str ("M")] ∧
    effectiveLessons (fun _ _ => [str ("l1"), str ("l2"), str ("l3")])
      (str ("T")) (str ("M")) = [str ("l1")] ++ str ("l2") :: [str ("l3")] ∧
    generate_lesson_content (fun _ _ l => l)
      (fun s => if s = str ("l2") then Except.error (str ("bad json"))
        else Except.ok (0 : Nat)) (str ("T")) (str ("M")) (str ("l2")) =
      Except.error (str ("bad json")) ∧
    (build_module (fun _ _ => [str ("l1"), str ("l2"), str ("l3")])
      (generate_lesson_content (fun _ _ l => l)
        (fun s => if s = str ("l2") then Except.error (str ("bad json"))
          else Except.ok (0 : Nat))) (str ("T")) (str ("M"))).items =
      ([str ("l1")]).filterMap (fun l => (generate_lesson_content (fun _ _ l => l)
          (fun s => if s = str ("l2") then Except.error (str ("bad json"))
            else Except.ok (0 : Nat)) (str ("T")) (str ("M")) l).toOption) ++
        ([str ("l3")]).filterMap (fun l => (generate_lesson_content (fun _ _ l => l)
          (fun s => if s = str ("l2") then Except.error (str ("bad json"))
            else Except.ok (0 : Nat)) (str ("T")) (str ("M")) l).toOption) :=
  ⟨by decide, by decide, rfl,
    (C8_lesson_failure_skipped [str ("M")]
      (fun _ _ => [str ("l1"), str ("l2"), str ("l3")]) (fun _ _ l => l)
      (fun s => if s = str ("l2") then Except.error (str ("bad json"))
        else Except.ok (0 : Nat))
      (str ("T")) (str ("M")) [str ("l1")] [str ("l3")] (str ("l2"))
      (str ("bad json")) (by decide) (by decide) rfl).2.1⟩

/-- C10: when lesson-title generation yields an empty list for a module, the
module is not dropped: exactly the three fallback titles derived from the
module title are substituted, and lesson-content generation proceeds on them;
moreover `ModuleGenerator.generate_lessons` yields that empty list exactly
when its JSON parse fails. -/
theorem C10_fallback_lessons {α : Type} (modules : List Str)
    (gen_lessons : Str → Str → List Str)
    (gen_lesson : Str → Str → Str → Except Str α) (topic m : Str)
    (hm : m ∈ modules) (hempty : gen_lessons topic m = []) :
    effectiveLessons gen_lessons topic m =
      [str ("Introduction to ") ++ m,
       str ("Advanced ") ++ m ++ str (" Concepts"),
       m ++ str (" Best Practices")] ∧
    (build_module gen_lessons gen_lesson topic m).items =
      (fallbackLessons m).filterMap
        (fun l => (gen_lesson topic m l).toOption) ∧
    (∃ menu, build_topic modules gen_lessons gen_lesson topic =
        some (topic, menu) ∧
      build_module gen_lessons gen_lesson topic m ∈ menu) ∧
    ∀ (complete : Str → Str → Str)
      (parseLessons : Str → Except Str (List Str)) (e : Str),
      parseLessons (complete topic m) = Except.error e →
      generate_lessons complete parseLessons topic m = [] := by
  have heff : effectiveLessons gen_lessons topic m = fallbackLessons m := by
    unfold effectiveLessons
    simp [hempty]
  refine ⟨heff, ?_, ?_, ?_⟩
  · unfold build_module
    rw [heff]
  · refine ⟨modules.map (build_module gen_lessons gen_lesson topic), ?_, ?_⟩
    · unfold build_topic
      rw [if_neg (List.ne_nil_of_mem hm)]
    · exact List.mem_map_of_mem _ hm
  · intro complete parseLessons e h
    unfold generate_lessons
    rw [h]

/-- Witness for C10: a module whose lesson generation yields nothing gets the
three fallback titles. -/
theorem C10_witness :
    (str ("M")) ∈ [str ("M")] ∧
    ((fun _ _ => []) : Str → Str → List Str) (str ("T")) (str ("M")) = [] ∧
    effectiveLessons (fun _ _ => []) (str ("T")) (str ("M")) =
      [str ("Introduction to ") ++ str ("M"),
       str ("Advanced ") ++ str ("M") ++ str (" Concepts"),
       str ("M") ++ str (" Best Practices")] :=
  ⟨by decide, rfl,
    (C10_fallback_lessons [str ("M")] (fun _ _ => [])
      (fun _ _ _ => Except.ok (0 : Nat)) (str ("T")) (str ("M"))
      (by decide) rfl).1⟩

-- ============================================================
-- C1
-- ============================================================

/-- A `filterMap` over a mapped list whose function succeeds everywhere is a
`map`. -/
theorem filterMap_map_eq_map_of {β γ δ : Type} (l : List β) (g : β → γ)
    (f : γ → Option δ) (h : β → δ) (hyp : ∀ a ∈ l, f (g a) = some (h a)) :
    (l.map g).filterMap f = l.map h := by
  induction l with
  | nil => rfl
  | cons a as ih =>
    rw [List.map_cons, List.filterMap_cons, hyp a (List.mem_cons_self a as),
      List.map_cons, ih (fun b hb => hyp b (List.mem_cons_of_mem a hb))]

/-- A `filterMap` over a constant list whose function succeeds. -/
theorem filterMap_replicate_some {β γ : Type} (cnt : Nat) (b : β)
    (f : β → Option γ) (v : γ) (h : f b = some v) :
    (List.replicate cnt b).filterMap f = List.replicate cnt v := by
  induction cnt with
  | zero => rfl
  | succ n ih =>
    rw [List.replicate_succ, List.replicate_succ, List.filterMap_cons, h, ih]

/-- Reading every position of a list back through `getD` reproduces it. -/
theorem map_getD_range {β : Type} (l : List β) (d : β) :
    (List.range l.length).map (fun i => l.getD i d) = l := by
  induction l with
  | nil => rfl
  | cons a as ih =>
    rw [List.length_cons, List.range_succ_eq_map, List.map_cons, List.map_map]
    have hfun : ((fun i => (a :: as).getD i d) ∘ Nat.succ) =
        fun i => as.getD i d := funext fun i => rfl
    rw [hfun, ih]
    rfl

/-- The faiss ranking is a permutation of all stored labels. -/
theorem rankedIdx_perm (vecs : List (List Int)) (q : List Int) :
    List.Perm (rankedIdx vecs q) (List.range vecs.length) :=
  List.perm_insertionSort _ _

/-- The faiss ranking is sorted by the distance order. -/
theorem rankedIdx_sorted (vecs : List (List Int)) (q : List Int) :
    (rankedIdx vecs q).Pairwise (FaissLe vecs q) :=
  List.sorted_insertionSort _ _

/-- Every ranked label is a valid position of the stored vectors. -/
theorem mem_rankedIdx_lt (vecs : List (List Int)) (q : List Int) (i : Nat)
    (h : i ∈ rankedIdx vecs q) : i < vecs.length :=
  List.mem_range.mp ((rankedIdx_perm vecs q).mem_iff.mp h)

/-- C1 counterexample: on an index holding the single chunk `"a"`, a query
with `k = 2` returns `["a", "a"]` — the faiss `-1` padding label passes the
`i < len(docs_store)` filter and Python's `docs_store[-1]` resolves it to the
last stored chunk — so the result is not "exactly all stored chunks" (that
would be `["a"]`) and it contains a duplicate. -/
theorem C1_counterexample :
    VectorBuilder.query (fun _ => [0]) ⟨[[0]], [str ("a")]⟩ (str ("q")) 2 =
      Except.ok [str ("a"), str ("a")] ∧
    [str ("a"), str ("a")] ≠ [str ("a")] ∧
    ¬ ([str ("a"), str ("a")] : List Str).Nodup :=
  ⟨rfl, by decide, by decide⟩

/-- C1 (amended): on an index with `n ≥ 1` stored chunks (store and index in
their length invariant) and any `k ≥ 1`, `query(q, k)` returns the `min(k, n)`
nearest stored chunks in non-decreasing L2 distance order, followed — when
`k > n` — by `k - n` further copies of the most recently stored chunk (faiss
pads missing neighbors with the label `-1`, which the `i < len(docs_store)`
filter admits and Python's negative indexing maps to the last stored chunk).
In particular for `k ≤ n` the claim holds as stated, and for `k ≥ n` the
distance-ranked prefix is a permutation of all stored chunks — but the full
result then also carries the duplicated padding entries. -/
theorem C1_query_topk_amended (embed : Str → List Int) (vb : VectorBuilder)
    (q : Str) (k : Nat)
    (hinv : vb.docs_store.length = vb.index.length)
    (hne : 1 ≤ vb.index.length) (hk : 1 ≤ k) :
    VectorBuilder.query embed vb q k = Except.ok
      ((((rankedIdx vb.index (embed q)).take k).map
          (fun i => vb.docs_store.getD i [])) ++
        List.replicate (k - vb.index.length)
          (vb.docs_store.getD (vb.index.length - 1) [])) ∧
    ((rankedIdx vb.index (embed q)).take k).Pairwise
      (fun i j => sqDist (vb.index.getD i []) (embed q) ≤
        sqDist (vb.index.getD j []) (embed q)) ∧
    (((rankedIdx vb.index (embed q)).take k).map
        (fun i => vb.docs_store.getD i [])).length = min k vb.index.length ∧
    (vb.index.length ≤ k →
      List.Perm (((rankedIdx vb.index (embed q)).take k).map
          (fun i => vb.docs_store.getD i [])) vb.docs_store) := by
  have hn0 : vb.index.length ≠ 0 := by omega
  have hlenr : (rankedIdx vb.index (embed q)).length = vb.index.length := by
    unfold rankedIdx
    rw [List.length_insertionSort, List.length_range]
  refine ⟨?_, ?_, ?_, ?_⟩
  · unfold VectorBuilder.query
    rw [if_neg hn0]
    show Except.ok ((faissSearchLabels vb.index (embed q) k).filterMap
      (fun i => if i < (vb.docs_store.length : Int)
        then some (pyGet vb.docs_store i) else none)) = _
    refine congrArg Except.ok ?_
    unfold faissSearchLabels
    rw [List.filterMap_append]
    refine congrArg₂ (· ++ ·) ?_ ?_
    · refine filterMap_map_eq_map_of _ _ _ _ ?_
      intro i hi
      have hilt : i < vb.index.length :=
        mem_rankedIdx_lt _ _ i (List.mem_of_mem_take hi)
      have hlt : Int.ofNat i < (vb.docs_store.length : Int) := by
        rw [show Int.ofNat i = (i : Int) from rfl, hinv]
        exact_mod_cast hilt
      show (if (Int.ofNat i) < (vb.docs_store.length : Int)
        then some (pyGet vb.docs_store (Int.ofNat i)) else none) =
        some (vb.docs_store.getD i [])
      rw [if_pos hlt]
      refine congrArg some ?_
      unfold pyGet
      rw [if_neg
        (by rw [show Int.ofNat i = (i : Int) from rfl]; omega : ¬ (Int.ofNat i < 0))]
      simp
    · refine filterMap_replicate_some _ _ _ _ ?_
      have hlt : (-1 : Int) < (vb.docs_store.length : Int) := by omega
      rw [if_pos hlt]
      refine congrArg some ?_
      unfold pyGet
      rw [if_pos (by omega : (-1 : Int) < 0), hinv]
      norm_num
  · refine (List.Pairwise.sublist (List.take_sublist k _)
      (rankedIdx_sorted vb.index (embed q))).imp ?_
    intro i j hij
    rcases hij with h | ⟨h, -⟩
    · exact le_of_lt h
    · exact le_of_eq h
  · rw [List.length_map, List.length_take, hlenr]
  · intro hnk
    rw [List.take_of_length_le (by rw [hlenr]; exact hnk)]
    have hperm := (rankedIdx_perm vb.index (embed q)).map
      (fun i => vb.docs_store.getD i [])
    have heq : (List.range vb.index.length).map
        (fun i => vb.docs_store.getD i []) = vb.docs_store := by
      rw [← hinv]
      exact map_getD_range _ _
    rw [heq] at hperm
    exact hperm

/-- Witness for C1 at a one-chunk index with `k = 1` (where the original
guarantees coincide with the amended ones). -/
theorem C1_witness :
    ([str ("a")] : List Str).length = ([[(0 : Int)]] : List (List Int)).length ∧
    (1 : Nat) ≤ 1 ∧
    (((rankedIdx [[(0 : Int)]] [0]).take 1).map
      (fun i => ([str ("a")] : List Str).getD i [])).length = min 1 1 :=
  ⟨rfl, le_refl 1,
    (C1_query_topk_amended (fun _ => [0]) ⟨[[0]], [str ("a")]⟩ (str ("q")) 1
      rfl (by decide) (by decide)).2.2.1⟩
